import Mathlib

/-!
Verification of the session lifecycle coordinator of the
`agent_manager_chat` repository.

The embedding follows the TypeScript sources:
* `UIStateManager` (embedded in `src/app/lib/config.test.ts`, also
  `src/app/lib/uiState` as imported by `sessionManager.ts`),
* `SessionPersistenceManager` (`src/app/lib/sessionPersistence.ts`),
* `ToolInvocationManager` (`src/app/lib/toolInvocation.ts`),
* the persistence-aware `SessionManager` of `src/app/lib/config.test.ts`.

JavaScript `Map`s and the key-value `Storage` object are modelled as
association lists with `Map` semantics (`set` replaces in place, `get`
returns the first binding, `delete` filters).  The `mcp_session_` key
prefix of the storage layer is an injective encoding of session ids and
is folded into the keyed map; the id index `mcp_session_ids` is kept as
a separate list, mirroring the two disjoint key spaces.  JSON
serialization of well-formed records is modelled as the identity, with
an `undefined` optional field represented by `Option.none`.
-/

/-- `UIState` record from `uiState.ts`: `currentTool` is an optional
field, `none` standing for an absent / `undefined` entry. -/
structure UIState where
  isLoading : Bool
  isThinking : Bool
  error : Option String
  currentTool : Option String := none
deriving DecidableEq, Repr

/-- A partial update object (`UIStateUpdate extends Partial<UIState>`).
The outer `Option` records whether the key is present in the object
literal: under object spread, a key present with value `undefined`
overwrites, while an absent key preserves the old field. -/
structure UIStateUpdate where
  isLoading : Option Bool := none
  isThinking : Option Bool := none
  error : Option (Option String) := none
  currentTool : Option (Option String) := none
deriving DecidableEq, Repr

/-- Association-list lookup with JavaScript `Map.get` semantics
(first binding wins; live maps never hold duplicate keys). -/
def lookupA {α : Type} : List (String × α) → String → Option α
  | [], _ => none
  | p :: rest, k => if p.1 == k then some p.2 else lookupA rest k

/-- Whether the map holds a binding for `k`. -/
def hasKey {α : Type} : List (String × α) → String → Bool
  | [], _ => false
  | p :: rest, k => p.1 == k || hasKey rest k

/-- Replace every binding of `k` by `v`, keeping positions. -/
def replaceA {α : Type} : List (String × α) → String → α → List (String × α)
  | [], _, _ => []
  | p :: rest, k, v => (if p.1 == k then (k, v) else p) :: replaceA rest k v

/-- `Map.set`: update in place when the key exists, append otherwise. -/
def setA {α : Type} (l : List (String × α)) (k : String) (v : α) : List (String × α) :=
  if hasKey l k then replaceA l k v else l ++ [(k, v)]

/-- `Map.delete`: drop every binding of `k`. -/
def eraseA {α : Type} (l : List (String × α)) (k : String) : List (String × α) :=
  l.filter (fun p => !(p.1 == k))

/-- The UI State Store: session id to `UIState`. -/
abbrev UIStates : Type := List (String × UIState)

/-- Default state created by `UIStateManager.initializeState`. -/
def initialState : UIState :=
  { isLoading := false, isThinking := false, error := none }

/-- `UIStateManager.getState`: pure lookup, `null` when absent. -/
def getState (states : UIStates) (sessionId : String) : Option UIState :=
  lookupA states sessionId

/-- `UIStateManager.initializeState`: unconditionally stores the default
state and returns it. -/
def initializeState (states : UIStates) (sessionId : String) : UIState × UIStates :=
  (initialState, setA states sessionId initialState)

/-- Object spread `{...currentState, ...update}`. -/
def applyUpdate (st : UIState) (u : UIStateUpdate) : UIState :=
  { isLoading := u.isLoading.getD st.isLoading,
    isThinking := u.isThinking.getD st.isThinking,
    error := u.error.getD st.error,
    currentTool := u.currentTool.getD st.currentTool }

/-- `UIStateManager.updateState`: shallow merge, throws on unknown id. -/
def updateState (states : UIStates) (sessionId : String) (u : UIStateUpdate) :
    Except String (UIState × UIStates) :=
  match lookupA states sessionId with
  | none => .error ("No UI state found for session " ++ sessionId)
  | some currentState =>
    let newState := applyUpdate currentState u
    .ok (newState, setA states sessionId newState)

/-- `UIStateManager.clearError`: clears only `error`; no-op when absent. -/
def clearError (states : UIStates) (sessionId : String) : UIStates :=
  match lookupA states sessionId with
  | none => states
  | some currentState => setA states sessionId { currentState with error := none }

/-- `UIStateManager.setError`: sets `error` and forces the loading and
thinking flags off; no-op when the id is absent. -/
def setError (states : UIStates) (sessionId : String) (e : String) : UIStates :=
  match lookupA states sessionId with
  | none => states
  | some currentState =>
    setA states sessionId
      { currentState with error := some e, isLoading := false, isThinking := false }

/-- `UIStateManager.deleteState`. -/
def deleteState (states : UIStates) (sessionId : String) : UIStates :=
  eraseA states sessionId

/-- `UIStateManager.getAllSessionIds`. -/
def getAllSessionIds (states : UIStates) : List String :=
  states.map Prod.fst

/-- `PersistedSession` record from `sessionPersistence.ts`.  Metadata is
an optional string-valued record; its values never influence control
flow. -/
structure PersistedSession where
  id : String
  lastActive : Int
  uiState : UIState
  metadata : Option (List (String × String)) := none
deriving DecidableEq, Repr

/-- The key-value storage backing `SessionPersistenceManager`: the
`mcp_session_<id>` records and the `mcp_session_ids` index. -/
structure Storage where
  sessions : List (String × PersistedSession)
  ids : List String
deriving DecidableEq, Repr

/-- Empty storage. -/
def Storage.empty : Storage := { sessions := [], ids := [] }

/-- `SessionPersistenceManager.getSessionIds`. -/
def getSessionIds (st : Storage) : List String := st.ids

/-- `SessionPersistenceManager.saveSession`: upsert the record under its
id, then append the id to the index when not already present. -/
def saveSession (st : Storage) (s : PersistedSession) : Storage :=
  { sessions := setA st.sessions s.id s,
    ids := if st.ids.contains s.id then st.ids else st.ids ++ [s.id] }

/-- `SessionPersistenceManager.loadSession`: `null` on a missing key. -/
def loadSession (st : Storage) (sessionId : String) : Option PersistedSession :=
  lookupA st.sessions sessionId

/-- `SessionPersistenceManager.deleteSession`: remove the record and
filter the id out of the index. -/
def deleteSession (st : Storage) (sessionId : String) : Storage :=
  { sessions := eraseA st.sessions sessionId,
    ids := st.ids.filter (fun i => !(i == sessionId)) }

/-- `SessionPersistenceManager.getAllSessions`: map the index through
`loadSession`, dropping ids that fail to load. -/
def getAllSessions (st : Storage) : List PersistedSession :=
  st.ids.filterMap (loadSession st)

/-- Loop body of `cleanupExpiredSessions`: iterate over the snapshot of
`getAllSessions`, deleting each record older than `maxAgeMs` and
collecting its id. -/
def cleanupLoop (now maxAgeMs : Int) :
    List PersistedSession → Storage → List String → List String × Storage
  | [], st, acc => (acc, st)
  | s :: rest, st, acc =>
    if now - s.lastActive > maxAgeMs then
      cleanupLoop now maxAgeMs rest (deleteSession st s.id) (acc ++ [s.id])
    else
      cleanupLoop now maxAgeMs rest st acc

/-- `SessionPersistenceManager.cleanupExpiredSessions` with the current
time made explicit (`Date.now()` in the source). -/
def cleanupExpiredSessions (st : Storage) (now : Int) (maxAgeDays : Int) :
    List String × Storage :=
  cleanupLoop now (maxAgeDays * 24 * 60 * 60 * 1000) (getAllSessions st) st []

/-- `SessionPersistenceManager.updateSessionActivity`: load, stamp
`lastActive := now`, save; no-op when the record is absent. -/
def updateSessionActivity (st : Storage) (sessionId : String) (now : Int) : Storage :=
  match loadSession st sessionId with
  | none => st
  | some s => saveSession st { s with lastActive := now }

/-- A chat message (`toolInvocation.ts`). -/
structure Message where
  role : String
  content : String
deriving DecidableEq, Repr

/-- Quota tracker state of `ToolInvocationManager`. -/
structure ToolInvocationManager where
  toolCallCount : Nat
  maxToolCalls : Nat
deriving DecidableEq, Repr

/-- `new ToolInvocationManager(maxToolCalls)`. -/
def ToolInvocationManager.mk0 (maxToolCalls : Nat) : ToolInvocationManager :=
  { toolCallCount := 0, maxToolCalls := maxToolCalls }

/-- Outcome of the `fetch` round trip inside `invokeToolOnServer`:
`ok` is `response.ok`, `status` is `response.status`. -/
structure FetchResponse where
  ok : Bool
  status : Nat
deriving DecidableEq, Repr

/-- `ToolInvocationManager.invokeToolOnServer`, parameterized by the
transport outcome.  Returns the call result, the new tracker state, and
whether the server was contacted.  The quota refusal is raised inside
the surrounding `try`, so the catch wraps it like every other error. -/
def invokeToolOnServer (m : ToolInvocationManager)
    (fetchResult : Except String FetchResponse) :
    Except String Unit × ToolInvocationManager × Bool :=
  if m.toolCallCount ≥ m.maxToolCalls then
    (.error "Tool invocation failed: Tool call limit reached", m, false)
  else
    match fetchResult with
    | .error e => (.error ("Tool invocation failed: " ++ e), m, true)
    | .ok r =>
      if r.ok then
        (.ok (), { m with toolCallCount := m.toolCallCount + 1 }, true)
      else
        (.error ("Tool invocation failed: Server responded with status "
          ++ toString r.status), m, true)

/-- `ToolInvocationManager.getToolCallCount`. -/
def getToolCallCount (m : ToolInvocationManager) : Nat := m.toolCallCount

/-- `ToolInvocationManager.getFinalMessage`. -/
def getFinalMessage : Message :=
  { role := "assistant",
    content := "I have reached the tool call limit. I can only use tools a limited number of times per session." }

/-- Combined coordinator state (`SessionManager` of `config.test.ts`):
the UI State Store plus the persistence storage. -/
structure MgrState where
  uiStates : UIStates
  storage : Storage
deriving DecidableEq, Repr

/-- `SessionManager.persistSession`: snapshot the given UI state under
the session id with `lastActive = Date.now()` (`now`). -/
def persistSession (ms : MgrState) (sessionId : String) (uiState : UIState)
    (now : Int) : MgrState :=
  let record : PersistedSession := { id := sessionId, lastActive := now, uiState := uiState }
  { ms with storage := saveSession ms.storage record }

/-- `SessionManager.initializeSession`, parameterized by the provider
outcomes: `createResult` is `mcpManager.initializeSession` (yields the
session id), `configureResult` is `mcpClient.configure` (consulted only
when `servers` is supplied).  Capability discovery failures are
swallowed by the source and do not touch coordinator state, so they do
not appear.  The catch deletes both the UI state and the persisted
record whenever an id had been obtained. -/
def initializeSession (ms : MgrState) (createResult : Except String String)
    (servers : Bool) (configureResult : Except String Unit) (now : Int) :
    Except String String × MgrState :=
  match createResult with
  | .error e => (.error ("Failed to initialize session: " ++ e), ms)
  | .ok sessionId =>
    let p := initializeState ms.uiStates sessionId
    let ms1 := persistSession { ms with uiStates := p.2 } sessionId p.1 now
    if servers then
      match configureResult with
      | .ok _ => (.ok sessionId, ms1)
      | .error e =>
        let ms2 : MgrState :=
          { uiStates := deleteState ms1.uiStates sessionId,
            storage := deleteSession ms1.storage sessionId }
        (.error ("Failed to initialize session: Failed to configure client: " ++ e), ms2)
    else
      (.ok sessionId, ms1)

/-- One streaming chunk: `{type, content?, error?}`. -/
structure Chunk where
  type : String
  content : Option String := none
  error : Option String := none
deriving DecidableEq, Repr

/-- The per-chunk `switch` of the generator inside
`SessionManager.sendMessageStream`, followed by the conditional
persistence write.  Returns the new coordinator state and the number of
`saveSession` calls made (0 or 1).  An exception from `updateState`
propagates (it is handled by the generator catch). -/
def chunkDispatch (ms : MgrState) (sessionId : String) (c : Chunk)
    (now : Int) : Except String (MgrState × Nat) :=
  let dispatched : Except String (Option UIState × UIStates) :=
    if c.type == "thinking" then
      (updateState ms.uiStates sessionId { isThinking := some true }).map
        (fun p => (some p.1, p.2))
    else if c.type == "tool_start" then
      (updateState ms.uiStates sessionId { currentTool := some c.content }).map
        (fun p => (some p.1, p.2))
    else if c.type == "tool_result" then
      (updateState ms.uiStates sessionId { currentTool := some none }).map
        (fun p => (some p.1, p.2))
    else if c.type == "error" then
      let states1 := setError ms.uiStates sessionId (c.error.getD "Unknown error")
      .ok (lookupA states1 sessionId, states1)
    else if c.type == "done" then
      (updateState ms.uiStates sessionId
        { isLoading := some false, isThinking := some false,
          currentTool := some none }).map (fun p => (some p.1, p.2))
    else
      .ok (none, ms.uiStates)
  match dispatched with
  | .error e => .error e
  | .ok (updatedState, states1) =>
    let ms1 : MgrState := { ms with uiStates := states1 }
    match updatedState with
    | some st =>
      if c.type == "thinking" || c.type == "error" || c.type == "done" then
        .ok (persistSession ms1 sessionId st now, 1)
      else
        .ok (ms1, 0)
    | none => .ok (ms1, 0)

/-- The `for await` loop of the stream generator, accumulating the
number of per-chunk persistence writes.  A thrown exception stops the
iteration and is reported. -/
def consumeChunks (sessionId : String) (now : Int) :
    List Chunk → MgrState → Nat → MgrState × Nat × Option String
  | [], ms, n => (ms, n, none)
  | c :: rest, ms, n =>
    match chunkDispatch ms sessionId c now with
    | .error e => (ms, n, some e)
    | .ok (ms1, w) => consumeChunks sessionId now rest ms1 (n + w)

/-- Result of fully consuming the stream generator. -/
structure StreamResult where
  state : MgrState
  chunkWrites : Nat
  touchWrites : Nat
  streamError : Option String
deriving DecidableEq, Repr

/-- The whole generator body of `sendMessageStream`: consume every
chunk, then (on success) update provider-side activity and touch the
persistence activity timestamp — the touch performs one further
`saveSession` when the record exists.  On a thrown error the catch sets
the error state and persists it when a UI state is present. -/
def streamGenerator (ms : MgrState) (sessionId : String) (chunks : List Chunk)
    (now : Int) : StreamResult :=
  match consumeChunks sessionId now chunks ms 0 with
  | (ms1, n, none) =>
    let tw := match loadSession ms1.storage sessionId with
      | none => 0
      | some _ => 1
    { state := { ms1 with storage := updateSessionActivity ms1.storage sessionId now },
      chunkWrites := n, touchWrites := tw, streamError := none }
  | (ms1, n, some e) =>
    let states1 := setError ms1.uiStates sessionId e
    match lookupA states1 sessionId with
    | some st =>
      { state := persistSession { ms1 with uiStates := states1 } sessionId st now,
        chunkWrites := n + 1, touchWrites := 0, streamError := some e }
    | none =>
      { state := { ms1 with uiStates := states1 },
        chunkWrites := n, touchWrites := 0, streamError := some e }

/-- The synchronous prefix of `SessionManager.sendMessageStream` before
the generator is handed back: require an existing UI state, set
`isLoading := true, error := null`, and persist once. -/
def sendMessageStream (ms : MgrState) (sessionId : String) (now : Int) :
    Except String MgrState :=
  match lookupA ms.uiStates sessionId with
  | none => .error ("No UI state found for session " ++ sessionId)
  | some _ =>
    match updateState ms.uiStates sessionId
      { isLoading := some true, error := some none } with
    | .error e => .error e
    | .ok p => .ok (persistSession { ms with uiStates := p.2 } sessionId p.1 now)

/-- `SessionManager.recoverSession`, parameterized by the provider
lookup outcome (`mcpManager.getSession`).  On provider success the UI
state is rebuilt from the persisted snapshot — spread with `error`
overridden to `null` — or freshly initialized when no snapshot exists,
and the persistence activity is touched.  On provider failure any
persisted record is deleted and the error is re-raised wrapped. -/
def recoverSession (ms : MgrState) (sessionId : String)
    (providerResult : Except String Unit) (now : Int) :
    Except String Unit × MgrState :=
  let persisted := loadSession ms.storage sessionId
  match providerResult with
  | .ok _ =>
    match persisted with
    | some ps =>
      let states1 := match lookupA ms.uiStates sessionId with
        | some _ => deleteState ms.uiStates sessionId
        | none => ms.uiStates
      let states2 := (initializeState states1 sessionId).2
      match updateState states2 sessionId
        { isLoading := some ps.uiState.isLoading,
          isThinking := some ps.uiState.isThinking,
          error := some none,
          currentTool := ps.uiState.currentTool.map some } with
      | .error e =>
        -- unreachable: the state was just initialized; routed through the
        -- catch like any other thrown error
        let storage1 := match loadSession ms.storage sessionId with
          | some _ => deleteSession ms.storage sessionId
          | none => ms.storage
        (.error ("Failed to recover session: " ++ e), { ms with storage := storage1 })
      | .ok p =>
        (.ok (), { uiStates := p.2,
                   storage := updateSessionActivity ms.storage sessionId now })
    | none =>
      let states3 := match lookupA ms.uiStates sessionId with
        | none => (initializeState ms.uiStates sessionId).2
        | some _ => clearError ms.uiStates sessionId
      (.ok (), { uiStates := states3,
                 storage := updateSessionActivity ms.storage sessionId now })
  | .error e =>
    let storage1 := match loadSession ms.storage sessionId with
      | some _ => deleteSession ms.storage sessionId
      | none => ms.storage
    (.error ("Failed to recover session: " ++ e), { ms with storage := storage1 })

/-- The chunk sequence of the streaming scenario:
thinking, tool_start("t"), tool_result, content("hi"), done. -/
def scenarioChunks : List Chunk :=
  [ { type := "thinking" },
    { type := "tool_start", content := some "t" },
    { type := "tool_result" },
    { type := "content", content := some "hi" },
    { type := "done" } ]


/-- Fixture: a coordinator state holding one session `"s"` in the default
UI state and empty storage. -/
def msW : MgrState :=
  { uiStates := [("s", initialState)], storage := Storage.empty }

/-- Fixture: reference time for the expiry scenario. -/
def nowW : Int := 1700000000000

/-- Fixture: persisted session whose `lastActive` lies 8 days in the past. -/
def sOld : PersistedSession :=
  { id := "old", lastActive := nowW - 8 * 86400000, uiState := initialState }

/-- Fixture: persisted session whose `lastActive` lies 6 days in the past. -/
def sRecent : PersistedSession :=
  { id := "recent", lastActive := nowW - 6 * 86400000, uiState := initialState }

/-- Fixture: storage holding `sOld` and `sRecent`. -/
def stW : Storage :=
  { sessions := [("old", sOld), ("recent", sRecent)], ids := ["old", "recent"] }

/-- Fixture: a persisted snapshot saved with `uiState.error = "x"`. -/
def psX : PersistedSession :=
  { id := "s", lastActive := 1,
    uiState := { isLoading := true, isThinking := true, error := some "x",
                 currentTool := some "t" } }

/-- Fixture: a coordinator state with no live UI state whose storage
holds exactly `psX`. -/
def msX : MgrState :=
  { uiStates := [], storage := saveSession Storage.empty psX }


theorem lookupA_replaceA_self {α : Type} (l : List (String × α)) (k : String) (v : α)
    (h : hasKey l k = true) : lookupA (replaceA l k v) k = some v := by
  induction l with
  | nil => simp [hasKey] at h
  | cons p rest ih =>
    by_cases hk : p.1 == k
    · simp [replaceA, lookupA, hk]
    · simp [hasKey, hk] at h
      simp [replaceA, lookupA, hk, ih h]

theorem lookupA_append_single_self {α : Type} (l : List (String × α)) (k : String) (v : α)
    (h : hasKey l k = false) : lookupA (l ++ [(k, v)]) k = some v := by
  induction l with
  | nil => simp [lookupA]
  | cons p rest ih =>
    simp [hasKey] at h
    simp [lookupA, h.1, ih h.2]

theorem lookupA_setA_self {α : Type} (l : List (String × α)) (k : String) (v : α) :
    lookupA (setA l k v) k = some v := by
  unfold setA
  by_cases h : hasKey l k
  · simp [h, lookupA_replaceA_self l k v h]
  · simp at h
    simp [h, lookupA_append_single_self l k v h]

theorem lookupA_replaceA_ne {α : Type} (l : List (String × α)) (k k' : String) (v : α)
    (h : k' ≠ k) : lookupA (replaceA l k v) k' = lookupA l k' := by
  induction l with
  | nil => simp [replaceA]
  | cons p rest ih =>
    by_cases hk : p.1 == k
    · have hkk : (k == k') = false := by
        simp only [beq_eq_false_iff_ne, ne_eq]
        exact fun hh => h hh.symm
      have hp : (p.1 == k') = false := by
        simp only [beq_iff_eq] at hk
        simp only [beq_eq_false_iff_ne, ne_eq, hk]
        exact fun hh => h hh.symm
      simp [replaceA, lookupA, hk, hkk, hp, ih]
    · simp [replaceA, lookupA, hk, ih]

theorem lookupA_append_single_ne {α : Type} (l : List (String × α)) (k k' : String) (v : α)
    (h : k' ≠ k) : lookupA (l ++ [(k, v)]) k' = lookupA l k' := by
  induction l with
  | nil =>
    have hkk : (k == k') = false := by
      simp only [beq_eq_false_iff_ne, ne_eq]
      exact fun hh => h hh.symm
    simp [lookupA, hkk]
  | cons p rest ih =>
    by_cases hp : p.1 == k'
    · simp [lookupA, hp]
    · simp [lookupA, hp, ih]

theorem lookupA_setA_ne {α : Type} (l : List (String × α)) (k k' : String) (v : α)
    (h : k' ≠ k) : lookupA (setA l k v) k' = lookupA l k' := by
  unfold setA
  by_cases hk : hasKey l k
  · simp [hk, lookupA_replaceA_ne l k k' v h]
  · simp at hk
    simp [hk, lookupA_append_single_ne l k k' v h]

theorem lookupA_eraseA_self {α : Type} (l : List (String × α)) (k : String) :
    lookupA (eraseA l k) k = none := by
  induction l with
  | nil => simp [eraseA, lookupA]
  | cons p rest ih =>
    by_cases hp : p.1 == k
    · simpa [eraseA, List.filter, hp] using ih
    · simpa [eraseA, List.filter, hp, lookupA] using ih

theorem lookupA_eraseA_ne {α : Type} (l : List (String × α)) (k k' : String)
    (h : k' ≠ k) : lookupA (eraseA l k) k' = lookupA l k' := by
  induction l with
  | nil => simp [eraseA, lookupA]
  | cons p rest ih =>
    by_cases hp : p.1 == k
    · have hp' : (p.1 == k') = false := by
        simp only [beq_iff_eq] at hp
        simp only [beq_eq_false_iff_ne, ne_eq, hp]
        exact fun hh => h hh.symm
      simpa [eraseA, List.filter, hp, lookupA, hp'] using ih
    · by_cases hq : p.1 == k'
      · simp [eraseA, List.filter, hp, lookupA, hq]
      · simpa [eraseA, List.filter, hp, lookupA, hq] using ih

theorem eraseA_of_not_mem {α : Type} (l : List (String × α)) (k : String)
    (h : lookupA l k = none) : eraseA l k = l := by
  induction l with
  | nil => simp [eraseA]
  | cons p rest ih =>
    by_cases hp : p.1 == k
    · simp [lookupA, hp] at h
    · simp [lookupA, hp] at h
      simp [eraseA, List.filter, hp] at ih ⊢
      exact ih h

theorem replaceA_replaceA {α : Type} (l : List (String × α)) (k : String) (v w : α) :
    replaceA (replaceA l k v) k w = replaceA l k w := by
  induction l with
  | nil => simp [replaceA]
  | cons p rest ih =>
    by_cases hp : p.1 == k
    · simp [replaceA, hp, ih]
    · simp [replaceA, hp, ih]

theorem hasKey_replaceA {α : Type} (l : List (String × α)) (k : String) (v : α) :
    hasKey (replaceA l k v) k = hasKey l k := by
  induction l with
  | nil => simp [replaceA]
  | cons p rest ih =>
    by_cases hp : p.1 == k
    · simp [replaceA, hasKey, hp]
    · simp [replaceA, hasKey, hp, ih]

theorem replaceA_of_no_key {α : Type} (l : List (String × α)) (k : String) (v : α)
    (h : hasKey l k = false) : replaceA l k v = l := by
  induction l with
  | nil => simp [replaceA]
  | cons p rest ih =>
    simp [hasKey] at h
    simp [replaceA, h.1, ih h.2]

theorem replaceA_append {α : Type} (l l2 : List (String × α)) (k : String) (v : α) :
    replaceA (l ++ l2) k v = replaceA l k v ++ replaceA l2 k v := by
  induction l with
  | nil => simp [replaceA]
  | cons p rest ih => simp [replaceA, ih]

theorem setA_setA_same {α : Type} (l : List (String × α)) (k : String) (v w : α) :
    setA (setA l k v) k w = setA l k w := by
  unfold setA
  by_cases h : hasKey l k
  · simp [h, hasKey_replaceA, replaceA_replaceA]
  · simp at h
    have h2 : hasKey (l ++ [(k, v)]) k = true := by
      induction l with
      | nil => simp [hasKey]
      | cons p rest ih =>
        simp [hasKey] at h ⊢
        right
        exact ih h.2
    simp [h, h2, replaceA_append, replaceA_of_no_key l k w h, replaceA]

/-- C4 (counterexample): re-initializing an existing id does not fail
with `DuplicateState`; it returns the default state normally and
silently replaces the previously stored (different) state. -/
theorem initializeState_duplicate_counterexample :
    (initializeState
      [("s", { isLoading := true, isThinking := true, error := some "boom", currentTool := some "t" })]
      "s").1 = initialState ∧
    lookupA (initializeState
      [("s", { isLoading := true, isThinking := true, error := some "boom", currentTool := some "t" })]
      "s").2 "s" = some initialState ∧
    initialState ≠
      { isLoading := true, isThinking := true, error := some "boom", currentTool := some "t" } := by
  decide

/-- C4 (amended): `initializeState(id)` always succeeds, returning
`{isLoading:false, isThinking:false, error:null}`; it stores that
default under `id` (overwriting any existing entry) and leaves every
other id untouched. -/
theorem initializeState_spec (states : UIStates) (sessionId : String) :
    (initializeState states sessionId).1 = initialState ∧
    lookupA (initializeState states sessionId).2 sessionId = some initialState ∧
    ∀ k, k ≠ sessionId → lookupA (initializeState states sessionId).2 k = lookupA states k := by
  refine ⟨rfl, lookupA_setA_self states sessionId initialState, ?_⟩
  intro k hk
  exact lookupA_setA_ne states sessionId k initialState hk

/-- Witness for `initializeState_spec` at a concrete store. -/
theorem initializeState_spec_witness :
    (initializeState [("a", initialState)] "s").1 = initialState ∧
    lookupA (initializeState [("a", initialState)] "s").2 "s" = some initialState ∧
    lookupA (initializeState [("a", initialState)] "s").2 "a" =
      lookupA [("a", initialState)] "a" := by
  have h := initializeState_spec [("a", initialState)] "s"
  exact ⟨h.1, h.2.1, h.2.2 "a" (by decide)⟩

/-- C7: on an existing id, `setError` sets the message and forces
`isLoading = false, isThinking = false` (leaving `currentTool` alone),
and repeating the call changes nothing: the store after the second call
equals the store after the first. -/
theorem setError_spec (states : UIStates) (sessionId msg : String) (st : UIState)
    (h : lookupA states sessionId = some st) :
    lookupA (setError states sessionId msg) sessionId =
      some { isLoading := false, isThinking := false, error := some msg,
             currentTool := st.currentTool } ∧
    setError (setError states sessionId msg) sessionId msg =
      setError states sessionId msg := by
  unfold setError
  rw [h]
  constructor
  · exact lookupA_setA_self states sessionId _
  · rw [lookupA_setA_self states sessionId _]
    exact setA_setA_same states sessionId _ _

/-- Witness for `setError_spec` at a concrete store. -/
theorem setError_spec_witness :
    lookupA [("s", ({ isLoading := true, isThinking := true, error := none,
                      currentTool := some "t" } : UIState))] "s" =
      some { isLoading := true, isThinking := true, error := none, currentTool := some "t" } ∧
    lookupA (setError
        [("s", { isLoading := true, isThinking := true, error := none, currentTool := some "t" })]
        "s" "boom") "s" =
      some { isLoading := false, isThinking := false, error := some "boom",
             currentTool := some "t" } ∧
    setError (setError
        [("s", { isLoading := true, isThinking := true, error := none, currentTool := some "t" })]
        "s" "boom") "s" "boom" =
      setError
        [("s", { isLoading := true, isThinking := true, error := none, currentTool := some "t" })]
        "s" "boom" := by
  have h := setError_spec
    [("s", { isLoading := true, isThinking := true, error := none, currentTool := some "t" })]
    "s" "boom"
    { isLoading := true, isThinking := true, error := none, currentTool := some "t" }
    (by decide)
  exact ⟨by decide, h.1, h.2⟩

/-- C8: `save(s); load(s.id)` returns a record equal to `s`, for every
storage contents and every persisted session. -/
theorem saveSession_loadSession_roundtrip (st : Storage) (s : PersistedSession) :
    loadSession (saveSession st s) s.id = some s := by
  unfold loadSession saveSession
  exact lookupA_setA_self st.sessions s.id s

/-- C9: on an existing id, `updateState` merges exactly the fields
present in the partial (each absent field keeps its previous value) and
leaves every other id untouched; on an unknown id it fails with the
`No UI state found` error. -/
theorem updateState_spec (states : UIStates) (sessionId : String) (u : UIStateUpdate) :
    (∀ st, lookupA states sessionId = some st →
      ∃ newStates,
        updateState states sessionId u =
          .ok ({ isLoading := u.isLoading.getD st.isLoading,
                 isThinking := u.isThinking.getD st.isThinking,
                 error := u.error.getD st.error,
                 currentTool := u.currentTool.getD st.currentTool }, newStates) ∧
        lookupA newStates sessionId =
          some { isLoading := u.isLoading.getD st.isLoading,
                 isThinking := u.isThinking.getD st.isThinking,
                 error := u.error.getD st.error,
                 currentTool := u.currentTool.getD st.currentTool } ∧
        ∀ k, k ≠ sessionId → lookupA newStates k = lookupA states k) ∧
    (lookupA states sessionId = none →
      updateState states sessionId u = .error ("No UI state found for session " ++ sessionId)) := by
  constructor
  · intro st h
    refine ⟨setA states sessionId (applyUpdate st u), ?_, ?_, ?_⟩
    · unfold updateState
      rw [h]
      rfl
    · exact lookupA_setA_self states sessionId _
    · intro k hk
      exact lookupA_setA_ne states sessionId k _ hk
  · intro h
    unfold updateState
    rw [h]

/-- Witness for `updateState_spec`: setting `isThinking` does not erase
a previously-set `currentTool`. -/
theorem updateState_spec_witness :
    lookupA [("s", ({ isLoading := false, isThinking := false, error := none,
                      currentTool := some "t" } : UIState))] "s" =
      some { isLoading := false, isThinking := false, error := none, currentTool := some "t" } ∧
    (∃ newStates,
      updateState
        [("s", { isLoading := false, isThinking := false, error := none, currentTool := some "t" })]
        "s" { isThinking := some true } =
        .ok ({ isLoading := false, isThinking := true, error := none,
               currentTool := some "t" }, newStates) ∧
      lookupA newStates "s" =
        some { isLoading := false, isThinking := true, error := none, currentTool := some "t" }) ∧
    updateState ([] : UIStates) "s" { isThinking := some true } =
      .error ("No UI state found for session " ++ "s") := by
  have h := updateState_spec
    [("s", { isLoading := false, isThinking := false, error := none, currentTool := some "t" })]
    "s" { isThinking := some true }
  have h0 := updateState_spec ([] : UIStates) "s" ({ isThinking := some true } : UIStateUpdate)
  refine ⟨by decide, ?_, h0.2 (by decide)⟩
  obtain ⟨ns, h1, h2, _⟩ := h.1
    { isLoading := false, isThinking := false, error := none, currentTool := some "t" }
    (by decide)
  exact ⟨ns, h1, h2⟩

/-- C10: on an id with no entry, `setError`, `clearError` and
`deleteState` all return normally and leave the store unchanged. -/
theorem unknown_id_noops (states : UIStates) (sessionId msg : String)
    (h : lookupA states sessionId = none) :
    setError states sessionId msg = states ∧
    clearError states sessionId = states ∧
    deleteState states sessionId = states := by
  refine ⟨?_, ?_, ?_⟩
  · unfold setError
    rw [h]
  · unfold clearError
    rw [h]
  · exact eraseA_of_not_mem states sessionId h

/-- Witness for `unknown_id_noops` at a concrete store. -/
theorem unknown_id_noops_witness :
    lookupA [("a", initialState)] "s" = none ∧
    setError [("a", initialState)] "s" "boom" = [("a", initialState)] ∧
    clearError [("a", initialState)] "s" = [("a", initialState)] ∧
    deleteState [("a", initialState)] "s" = [("a", initialState)] := by
  have h := unknown_id_noops [("a", initialState)] "s" "boom" (by decide)
  exact ⟨by decide, h.1, h.2.1, h.2.2⟩

/-- C3: with a ceiling of 2, two invocations whose round trips succeed
both return `ok` and advance the counter; the third attempt (whatever
its transport would have done) is refused with the limit-reached error,
without contacting the server (`contacted = false`) and without
incrementing, so the count reads exactly 2. -/
theorem invokeToolOnServer_quota (a b : FetchResponse) (c : Except String FetchResponse)
    (ha : a.ok = true) (hb : b.ok = true) :
    (invokeToolOnServer (ToolInvocationManager.mk0 2) (.ok a)).1 = .ok () ∧
    (invokeToolOnServer
      (invokeToolOnServer (ToolInvocationManager.mk0 2) (.ok a)).2.1 (.ok b)).1 = .ok () ∧
    (invokeToolOnServer (invokeToolOnServer
      (invokeToolOnServer (ToolInvocationManager.mk0 2) (.ok a)).2.1 (.ok b)).2.1 c).1 =
      .error "Tool invocation failed: Tool call limit reached" ∧
    (invokeToolOnServer (invokeToolOnServer
      (invokeToolOnServer (ToolInvocationManager.mk0 2) (.ok a)).2.1 (.ok b)).2.1 c).2.2 = false ∧
    getToolCallCount (invokeToolOnServer (invokeToolOnServer
      (invokeToolOnServer (ToolInvocationManager.mk0 2) (.ok a)).2.1 (.ok b)).2.1 c).2.1 = 2 := by
  simp [invokeToolOnServer, ToolInvocationManager.mk0, ha, hb, getToolCallCount]

/-- Witness for `invokeToolOnServer_quota` with three 200-OK responses. -/
theorem invokeToolOnServer_quota_witness :
    (FetchResponse.mk true 200).ok = true ∧
    (invokeToolOnServer (invokeToolOnServer
      (invokeToolOnServer (ToolInvocationManager.mk0 2) (.ok (FetchResponse.mk true 200))).2.1
        (.ok (FetchResponse.mk true 200))).2.1 (.ok (FetchResponse.mk true 200))).1 =
      .error "Tool invocation failed: Tool call limit reached" ∧
    getToolCallCount (invokeToolOnServer (invokeToolOnServer
      (invokeToolOnServer (ToolInvocationManager.mk0 2) (.ok (FetchResponse.mk true 200))).2.1
        (.ok (FetchResponse.mk true 200))).2.1 (.ok (FetchResponse.mk true 200))).2.1 = 2 := by
  have h := invokeToolOnServer_quota (FetchResponse.mk true 200) (FetchResponse.mk true 200)
    (.ok (FetchResponse.mk true 200)) rfl rfl
  exact ⟨rfl, h.2.2.1, h.2.2.2.2⟩

/-- C2: when `createSession` yields an id and the provider-side
`configure` fails, `initializeSession` re-raises a wrapped error and
rolls back all partial bookkeeping: afterwards the UI State Store has
no entry for the id, the persisted record is gone, and the id index
does not contain the id. -/
theorem initializeSession_rollback (ms : MgrState) (sessionId e : String) (now : Int) :
    (initializeSession ms (.ok sessionId) true (.error e) now).1 =
      .error ("Failed to initialize session: Failed to configure client: " ++ e) ∧
    lookupA (initializeSession ms (.ok sessionId) true (.error e) now).2.uiStates sessionId
      = none ∧
    loadSession (initializeSession ms (.ok sessionId) true (.error e) now).2.storage sessionId
      = none ∧
    sessionId ∉ getSessionIds (initializeSession ms (.ok sessionId) true (.error e) now).2.storage := by
  refine ⟨rfl, ?_, ?_, ?_⟩
  · exact lookupA_eraseA_self _ sessionId
  · exact lookupA_eraseA_self _ sessionId
  · simp [initializeSession, getSessionIds, deleteSession, List.mem_filter]

theorem lookupA_mem {α : Type} (l : List (String × α)) (k : String) (v : α)
    (h : lookupA l k = some v) : (k, v) ∈ l := by
  induction l with
  | nil => simp [lookupA] at h
  | cons p rest ih =>
    by_cases hp : p.1 == k
    · simp [lookupA, hp] at h
      simp only [beq_iff_eq] at hp
      cases p with
      | mk a b =>
        simp only at hp h
        subst hp
        subst h
        exact List.mem_cons_self _ _
    · simp [lookupA, hp] at h
      right
      exact ih h

theorem loadSession_deleteSession (st : Storage) (i k : String) :
    loadSession (deleteSession st i) k = if k = i then none else loadSession st k := by
  by_cases h : k = i
  · subst h
    simp only [if_pos rfl]
    exact lookupA_eraseA_self st.sessions k
  · simp only [if_neg h]
    exact lookupA_eraseA_ne st.sessions i k h

theorem cleanupLoop_fst (now maxAgeMs : Int) (sessions : List PersistedSession)
    (st : Storage) (acc : List String) :
    (cleanupLoop now maxAgeMs sessions st acc).1 =
      acc ++ (sessions.filter (fun s => now - s.lastActive > maxAgeMs)).map
        PersistedSession.id := by
  induction sessions generalizing st acc with
  | nil => simp [cleanupLoop]
  | cons s rest ih =>
    by_cases h : now - s.lastActive > maxAgeMs
    · simp [cleanupLoop, h, ih]
    · simp [cleanupLoop, h, ih]

theorem cleanupLoop_load (now maxAgeMs : Int) (sessions : List PersistedSession)
    (st : Storage) (acc : List String) (k : String) :
    loadSession (cleanupLoop now maxAgeMs sessions st acc).2 k =
      (if k ∈ (sessions.filter (fun s => now - s.lastActive > maxAgeMs)).map
          PersistedSession.id
       then none else loadSession st k) := by
  induction sessions generalizing st acc with
  | nil => simp [cleanupLoop]
  | cons s rest ih =>
    by_cases h : now - s.lastActive > maxAgeMs
    · rw [cleanupLoop]
      simp only [h, if_pos]
      rw [ih]
      by_cases hk : k ∈ (rest.filter (fun s => now - s.lastActive > maxAgeMs)).map
          PersistedSession.id
      · simp [hk, h]
      · simp only [hk, if_neg, if_false]
        rw [loadSession_deleteSession]
        by_cases hks : k = s.id
        · simp [hks, h]
        · simp [h, hk, hks]
    · rw [cleanupLoop]
      simp only [h, if_neg, if_false]
      rw [ih]
      have hfil : List.filter (fun s => decide (now - s.lastActive > maxAgeMs)) (s :: rest) =
          List.filter (fun s => decide (now - s.lastActive > maxAgeMs)) rest := by
        simp [List.filter, h]
      rw [hfil]

/-- C6: on a well-formed storage (each record is keyed by its own id and
indexed), `cleanupExpiredSessions` removes exactly the records whose age
`now - lastActive` strictly exceeds `maxAgeDays * 86400000`, returns
exactly the ids it deleted, leaves every younger record loadable
unchanged, and a removed record subsequently loads as `null`. -/
theorem cleanupExpiredSessions_spec (st : Storage) (now maxAgeDays : Int)
    (hwf : ∀ p ∈ st.sessions, PersistedSession.id p.2 = p.1)
    (hidx : ∀ p ∈ st.sessions, p.1 ∈ st.ids) :
    (∀ id s, loadSession st id = some s →
      ((id ∈ (cleanupExpiredSessions st now maxAgeDays).1 ↔
          now - s.lastActive > maxAgeDays * 86400000) ∧
       loadSession (cleanupExpiredSessions st now maxAgeDays).2 id =
         (if now - s.lastActive > maxAgeDays * 86400000 then none else some s))) ∧
    (∀ id, id ∈ (cleanupExpiredSessions st now maxAgeDays).1 →
      ∃ s, loadSession st id = some s ∧ now - s.lastActive > maxAgeDays * 86400000) := by
  have harith : maxAgeDays * 24 * 60 * 60 * 1000 = maxAgeDays * 86400000 := by ring
  have hback : ∀ id, id ∈ (cleanupExpiredSessions st now maxAgeDays).1 →
      ∃ s, loadSession st id = some s ∧ now - s.lastActive > maxAgeDays * 86400000 := by
    intro id hmem
    rw [cleanupExpiredSessions, cleanupLoop_fst] at hmem
    simp only [List.nil_append, List.mem_map, List.mem_filter] at hmem
    obtain ⟨s', ⟨hall, hexp⟩, hid⟩ := hmem
    rw [getAllSessions] at hall
    rw [List.mem_filterMap] at hall
    obtain ⟨k, _, hloadk⟩ := hall
    have hmem2 := lookupA_mem st.sessions k s' hloadk
    have hk : PersistedSession.id s' = k := hwf (k, s') hmem2
    rw [hid] at hk
    subst hk
    refine ⟨s', hloadk, ?_⟩
    rw [← harith]
    exact of_decide_eq_true hexp
  refine ⟨?_, hback⟩
  intro id s hload
  have hmem : (id, s) ∈ st.sessions := lookupA_mem st.sessions id s hload
  have hsid : PersistedSession.id s = id := hwf (id, s) hmem
  have hids : id ∈ st.ids := hidx (id, s) hmem
  have hall : s ∈ getAllSessions st := by
    rw [getAllSessions, List.mem_filterMap]
    exact ⟨id, hids, hload⟩
  have hiff : id ∈ (cleanupExpiredSessions st now maxAgeDays).1 ↔
      now - s.lastActive > maxAgeDays * 86400000 := by
    constructor
    · intro hmem1
      obtain ⟨s', hload', hexp'⟩ := hback id hmem1
      rw [hload] at hload'
      cases hload'
      exact hexp'
    · intro hexp
      rw [cleanupExpiredSessions, cleanupLoop_fst]
      simp only [List.nil_append, List.mem_map, List.mem_filter]
      refine ⟨s, ⟨hall, ?_⟩, hsid⟩
      rw [decide_eq_true_eq, ← harith] at *
      rw [harith]
      exact hexp
  refine ⟨hiff, ?_⟩
  rw [cleanupExpiredSessions, cleanupLoop_load]
  by_cases hexp : now - s.lastActive > maxAgeDays * 86400000
  · have : id ∈ (List.filter (fun s => decide (now - s.lastActive >
        maxAgeDays * 24 * 60 * 60 * 1000)) (getAllSessions st)).map PersistedSession.id := by
      simp only [List.mem_map, List.mem_filter]
      refine ⟨s, ⟨hall, ?_⟩, hsid⟩
      rw [decide_eq_true_eq, harith]
      exact hexp
    simp [this, hexp]
  · have : id ∉ (List.filter (fun s => decide (now - s.lastActive >
        maxAgeDays * 24 * 60 * 60 * 1000)) (getAllSessions st)).map PersistedSession.id := by
      intro hcon
      simp only [List.mem_map, List.mem_filter] at hcon
      obtain ⟨s', ⟨hall', hexp'⟩, hid'⟩ := hcon
      rw [getAllSessions, List.mem_filterMap] at hall'
      obtain ⟨k, _, hloadk⟩ := hall'
      have hk : PersistedSession.id s' = k := hwf (k, s') (lookupA_mem st.sessions k s' hloadk)
      rw [hid'] at hk
      subst hk
      rw [hload] at hloadk
      cases hloadk
      rw [decide_eq_true_eq, harith] at hexp'
      exact hexp hexp'
    simp [this, hexp, hload]

/-- Witness for `cleanupExpiredSessions_spec`: with `expire(7)`, the
8-day-old record is removed (and then loads as `null`) while the
6-day-old record survives untouched. -/
theorem cleanupExpiredSessions_spec_witness :
    (∀ p ∈ stW.sessions, PersistedSession.id p.2 = p.1) ∧
    (∀ p ∈ stW.sessions, p.1 ∈ stW.ids) ∧
    loadSession stW "old" = some sOld ∧
    loadSession stW "recent" = some sRecent ∧
    "old" ∈ (cleanupExpiredSessions stW nowW 7).1 ∧
    loadSession (cleanupExpiredSessions stW nowW 7).2 "old" = none ∧
    "recent" ∉ (cleanupExpiredSessions stW nowW 7).1 ∧
    loadSession (cleanupExpiredSessions stW nowW 7).2 "recent" = some sRecent := by
  have h := cleanupExpiredSessions_spec stW nowW 7 (by decide) (by decide)
  have hold := h.1 "old" sOld (by decide)
  have hrec := h.1 "recent" sRecent (by decide)
  have hcOld : nowW - sOld.lastActive > (7 : Int) * 86400000 := by decide
  have hcRec : ¬ nowW - sRecent.lastActive > (7 : Int) * 86400000 := by decide
  refine ⟨by decide, by decide, by decide, by decide, ?_, ?_, ?_, ?_⟩
  · exact hold.1.mpr hcOld
  · have h2 := hold.2
    rw [if_pos hcOld] at h2
    exact h2
  · intro hm
    exact hcRec (hrec.1.mp hm)
  · have h2 := hrec.2
    rw [if_neg hcRec] at h2
    exact h2

/-- C5: when a persisted snapshot exists and the provider lookup
succeeds, `recoverSession` rebuilds the UIState from the snapshot with
`error` forced to `null` (loading, thinking and current tool come from
the snapshot) and touches the persisted `lastActive` timestamp to
`now`. -/
theorem recoverSession_spec (ms : MgrState) (sessionId : String) (ps : PersistedSession)
    (now : Int) (hload : loadSession ms.storage sessionId = some ps)
    (hid : PersistedSession.id ps = sessionId) :
    (recoverSession ms sessionId (.ok ()) now).1 = .ok () ∧
    lookupA (recoverSession ms sessionId (.ok ()) now).2.uiStates sessionId =
      some { isLoading := ps.uiState.isLoading, isThinking := ps.uiState.isThinking,
             error := none, currentTool := ps.uiState.currentTool } ∧
    loadSession (recoverSession ms sessionId (.ok ()) now).2.storage sessionId =
      some { ps with lastActive := now } := by
  have hmap : (Option.map some (UIState.currentTool (PersistedSession.uiState ps))).getD none
      = UIState.currentTool (PersistedSession.uiState ps) := by
    cases hct : UIState.currentTool (PersistedSession.uiState ps) <;> rfl
  have hload2 : lookupA ms.storage.sessions sessionId = some ps := hload
  refine ⟨?_, ?_, ?_⟩ <;>
    cases hui : lookupA ms.uiStates sessionId <;>
      simp [recoverSession, hload2, hui, updateState, initializeState, lookupA_setA_self,
        applyUpdate, updateSessionActivity, loadSession, saveSession, hid, hmap, initialState]

/-- Witness for `recoverSession_spec`: a snapshot saved with
`uiState.error = "x"` recovers with `error = null`. -/
theorem recoverSession_spec_witness :
    loadSession msX.storage "s" = some psX ∧
    PersistedSession.id psX = "s" ∧
    (recoverSession msX "s" (.ok ()) 2).1 = .ok () ∧
    lookupA (recoverSession msX "s" (.ok ()) 2).2.uiStates "s" =
      some { isLoading := true, isThinking := true, error := none, currentTool := some "t" } ∧
    loadSession (recoverSession msX "s" (.ok ()) 2).2.storage "s" =
      some { psX with lastActive := 2 } := by
  have h := recoverSession_spec msX "s" psX 2 (by decide) (by decide)
  exact ⟨by decide, by decide, h.1, h.2.1, h.2.2⟩

/-- C1 (amended): consuming the stream on
`[thinking, tool_start("t"), tool_result, content("hi"), done]` ends
with UIState `{isLoading:false, isThinking:false, currentTool:undefined,
error:null}` and no stream error, but only the `thinking` and `done`
chunks trigger a persistence write (2 chunk writes); `tool_start`,
`tool_result` and `content` do not, and one further write is the final
activity touch after the last chunk. -/
theorem sendMessageStream_scenario (ms : MgrState) (sessionId : String) (st0 : UIState)
    (now : Int) (h : lookupA ms.uiStates sessionId = some st0) :
    ∃ ms1, sendMessageStream ms sessionId now = .ok ms1 ∧
      (streamGenerator ms1 sessionId scenarioChunks now).streamError = none ∧
      lookupA (streamGenerator ms1 sessionId scenarioChunks now).state.uiStates sessionId =
        some { isLoading := false, isThinking := false, error := none, currentTool := none } ∧
      (streamGenerator ms1 sessionId scenarioChunks now).chunkWrites = 2 ∧
      (streamGenerator ms1 sessionId scenarioChunks now).touchWrites = 1 := by
  refine ⟨persistSession { ms with uiStates := setA ms.uiStates sessionId { isLoading := true, isThinking := st0.isThinking, error := none, currentTool := st0.currentTool } } sessionId { isLoading := true, isThinking := st0.isThinking, error := none, currentTool := st0.currentTool } now, ?_, ?_, ?_, ?_, ?_⟩ <;>
    simp [sendMessageStream, h, streamGenerator, consumeChunks, chunkDispatch, scenarioChunks,
      updateState, applyUpdate, persistSession, saveSession, loadSession, setError,
      updateSessionActivity, lookupA_setA_self, setA_setA_same, Except.map]

/-- Witness for `sendMessageStream_scenario` on the concrete state
`msW`. -/
theorem sendMessageStream_scenario_witness :
    lookupA msW.uiStates "s" = some initialState ∧
    ∃ ms1, sendMessageStream msW "s" 5 = .ok ms1 ∧
      (streamGenerator ms1 "s" scenarioChunks 5).streamError = none ∧
      lookupA (streamGenerator ms1 "s" scenarioChunks 5).state.uiStates "s" =
        some { isLoading := false, isThinking := false, error := none, currentTool := none } ∧
      (streamGenerator ms1 "s" scenarioChunks 5).chunkWrites = 2 ∧
      (streamGenerator ms1 "s" scenarioChunks 5).touchWrites = 1 := by
  exact ⟨by decide, sendMessageStream_scenario msW "s" initialState 5 (by decide)⟩

/-- C1 (counterexample): on the concrete state `msW` the scenario does
not perform 4 persistence writes while consuming the chunks: the chunk
dispatch writes twice (`thinking` and `done` only — `tool_start` and
`tool_result` do not persist) and the post-stream activity touch writes
once, so the total is 3, not 4. -/
theorem sendMessageStream_writes_counterexample :
    Except.map (fun ms1 => (streamGenerator ms1 "s" scenarioChunks 5).chunkWrites)
      (sendMessageStream msW "s" 5) = .ok 2 ∧
    Except.map (fun ms1 => (streamGenerator ms1 "s" scenarioChunks 5).chunkWrites +
        (streamGenerator ms1 "s" scenarioChunks 5).touchWrites)
      (sendMessageStream msW "s" 5) = .ok 3 ∧
    (2 : Nat) ≠ 4 ∧ (3 : Nat) ≠ 4 := by
  refine ⟨rfl, rfl, by decide, by decide⟩

/-- Witness for `initializeSession_rollback` on the concrete state
`msW`. -/
theorem initializeSession_rollback_witness :
    (initializeSession msW (.ok "x") true (.error "boom") 7).1 =
      .error ("Failed to initialize session: Failed to configure client: " ++ "boom") ∧
    lookupA (initializeSession msW (.ok "x") true (.error "boom") 7).2.uiStates "x" = none ∧
    loadSession (initializeSession msW (.ok "x") true (.error "boom") 7).2.storage "x" = none ∧
    "x" ∉ getSessionIds (initializeSession msW (.ok "x") true (.error "boom") 7).2.storage := by
  exact initializeSession_rollback msW "x" "boom" 7
